import Mathlib

/-!
Shallow embedding of src/temp_mail_generator.py (class TempMailGenerator).

Conventions used throughout:
* JSON-decoded Python values are modeled by the Json type below; Json.null
  models Python None (the fields of the generator object hold such values).
* Every requests.get / requests.post call consumes one NetResp from a
  positional oracle stream (the List NetResp argument). NetResp.exn models
  the requests call itself raising (timeout, connection error);
  NetResp.http status body models a completed response whose .json() method
  yields body (body = none models .json() raising on a non-JSON body).
  An empty oracle stream is read as a transport error.
* requests.Response.raise_for_status raises exactly for 400 <= status < 600.
* time.time() values and time.sleep durations are modeled as rationals.
* Random draws (the random.choices strings, the random.choice picks) are
  explicit parameters; a random.choice among n elements picks index p % n.
* Console prints and sleeps are recorded as observable output so that
  "no network call", "no retry" and error reporting are provable.
-/

namespace TempMail

/-- JSON-decoded Python values (the shapes produced by resp.json()). -/
inductive Json where
  | null : Json
  | bool : Bool → Json
  | num : Int → Json
  | str : String → Json
  | arr : List Json → Json
  | obj : List (String × Json) → Json

/-- Python truthiness of a JSON-decoded value. -/
def Json.truthy : Json → Bool
  | .null => false
  | .bool b => b
  | .num n => n != 0
  | .str s => s != ""
  | .arr xs => !xs.isEmpty
  | .obj fs => !fs.isEmpty

/-- Is this value Python None? -/
def Json.isNull : Json → Bool
  | .null => true
  | _ => false

/-- Python dict.get k: Json.null when the key is absent; none models the
AttributeError raised when the receiver is not a dict. -/
def Json.pyGet : Json → String → Option Json
  | .obj fs, k => some ((fs.lookup k).getD Json.null)
  | _, _ => none

/-- Python str() of a JSON-decoded value, as used by f-string interpolation.
Exact for scalar values; no code path relevant to the claims interpolates a
list or a dict, so those are rendered by a fixed marker. -/
def pyStr : Json → String
  | .null => "None"
  | .bool true => "True"
  | .bool false => "False"
  | .num n => toString n
  | .str s => s
  | .arr _ => "<list>"
  | .obj _ => "<dict>"

/-- Helper for pySplit (Python str.split for a one-character separator). -/
def pySplitChars (c : Char) : List Char → List (List Char)
  | [] => [[]]
  | x :: rest =>
    let r := pySplitChars c rest
    if x = c then [] :: r
    else
      match r with
      | [] => [[x]]
      | h :: t => (x :: h) :: t

/-- Python str.split(sep) for a single-character separator. -/
def pySplit (s : String) (c : Char) : List String :=
  (pySplitChars c s.data).map (fun l => String.mk l)

/-- Python membership test c in s for a character and a string. -/
def pyContains (s : String) (c : Char) : Bool := s.data.contains c

/-- Outcome of one outbound requests call, drawn from the oracle stream. -/
inductive NetResp where
  | http : Nat → Option Json → NetResp
  | exn : String → NetResp

/-- The two provider tags the generator switches between. -/
inductive Provider where
  | onesecmail : Provider
  | mailtm : Provider
deriving DecidableEq

/-- The mutable fields of a TempMailGenerator object (see __init__). -/
structure GenState where
  email : Json
  login : Json
  domain : Json
  last_http_status : Option Nat
  last_http_error : Option String
  last_inbox : List Json
  last_inbox_ts : ℚ
  min_fetch_interval_sec : ℚ
  provider : Provider
  mailtm_token : Json
  mailtm_address : Json
  mailtm_account_id : Json

/-- The state right after TempMailGenerator.__init__. -/
def initState : GenState :=
  { email := Json.null, login := Json.null, domain := Json.null,
    last_http_status := none, last_http_error := none,
    last_inbox := [], last_inbox_ts := 0, min_fetch_interval_sec := 6,
    provider := Provider.onesecmail,
    mailtm_token := Json.null, mailtm_address := Json.null,
    mailtm_account_id := Json.null }

/-- Result of running one method: return value, updated object state,
remaining network oracle, console prints, and time.sleep durations. -/
structure Eff (α : Type) where
  val : α
  st : GenState
  net : List NetResp
  prints : List String
  sleeps : List ℚ

/-- str(e) for a requests.HTTPError with the given status (the exact message
text is irrelevant to the claims). -/
def http_error_str (status : Nat) : String := "HTTPError " ++ toString status

/-- The tuple (403, 429, 500, 502, 503, 504) checked by _get_json. -/
def retry_statuses : List Nat := [403, 429, 500, 502, 503, 504]

/-- time.sleep(1.5 * (attempt + 1)). -/
def backoff (attempt : Nat) : ℚ := (3 / 2) * (attempt + 1)

/-- The retry loop of _get_json (for attempt in range(3)); fuel counts the
remaining loop iterations and attempt mirrors the loop variable. A generic
exception from requests.get (NetResp.exn) is caught by the final except
branch and returns None immediately: only requests.HTTPError reaches the
retry check. On a 403 the code sleeps inside the try, then raise_for_status
raises and the handler sleeps again before continuing. -/
def get_json_loop : Nat → Nat → GenState → List NetResp → Eff (Option Json)
  | 0, _, st, net => ⟨none, st, net, [], []⟩
  | fuel + 1, attempt, st, net =>
    match net with
    | [] =>
      ⟨none, { st with last_http_error := some "connection error" },
        [], ["❌ HTTP error: connection error"], []⟩
    | NetResp.exn msg :: rest =>
      ⟨none, { st with last_http_error := some msg }, rest,
        ["❌ HTTP error: " ++ msg], []⟩
    | NetResp.http status body :: rest =>
      let st1 := { st with last_http_status := some status }
      if status = 403 then
        let st2 := { st1 with last_http_error := some (http_error_str 403) }
        if attempt < 2 then
          let k := get_json_loop fuel (attempt + 1) st2 rest
          ⟨k.val, k.st, k.net, k.prints,
            backoff attempt :: backoff attempt :: k.sleeps⟩
        else
          ⟨none, st2, rest, ["❌ HTTP error: " ++ http_error_str 403],
            [backoff attempt]⟩
      else if 400 ≤ status ∧ status < 600 then
        let st2 := { st1 with last_http_error := some (http_error_str status) }
        if status ∈ retry_statuses ∧ attempt < 2 then
          let k := get_json_loop fuel (attempt + 1) st2 rest
          ⟨k.val, k.st, k.net, k.prints, backoff attempt :: k.sleeps⟩
        else
          ⟨none, st2, rest, ["❌ HTTP error: " ++ http_error_str status], []⟩
      else
        match body with
        | some j => ⟨some j, st1, rest, [], []⟩
        | none => ⟨none, st1, rest, ["❌ Non-JSON response from provider"], []⟩

/-- _get_json: resets the last status/error fields, then runs the loop. -/
def get_json (st : GenState) (net : List NetResp) : Eff (Option Json) :=
  get_json_loop 3 0
    { st with last_http_status := none, last_http_error := none } net

/-- The comprehension [it.get('domain') for it in items if it.get('domain')];
none models an exception escaping it (some element is not a dict). -/
def hydra_domains_go : List Json → Option (List Json)
  | [] => some []
  | it :: rest =>
    match it.pyGet "domain" with
    | none => none
    | some d =>
      match hydra_domains_go rest with
      | none => none
      | some ds => some (if d.truthy then d :: ds else ds)

/-- items = js.get('hydra:member') or [], then the domain comprehension;
none models an exception inside the enclosing try (non-dict response, or a
truthy non-list member value, whose iteration raises). -/
def hydra_domain_list (js : Json) : Option (List Json) :=
  match js.pyGet "hydra:member" with
  | none => none
  | some member =>
    let items := if member.truthy then member else Json.arr []
    match items with
    | Json.arr xs => hydra_domains_go xs
    | _ => none

/-- GET https://api.mail.tm/domains plus hydra:member extraction; any
exception yields []. Consumes exactly one oracle entry when the stream is
nonempty; the generator state is not touched by this call. -/
def mailtm_fetch_domains (net : List NetResp) : List Json × List NetResp :=
  match net with
  | [] => ([], [])
  | NetResp.exn _ :: rest => ([], rest)
  | NetResp.http status body :: rest =>
    if 400 ≤ status ∧ status < 600 then ([], rest)
    else
      match body with
      | none => ([], rest)
      | some js =>
        match hydra_domain_list js with
        | some ds => (ds, rest)
        | none => ([], rest)

/-- get_available_domains. -/
def get_available_domains (st : GenState) (net : List NetResp) : Eff (List Json) :=
  match st.provider with
  | Provider.onesecmail =>
    let g := get_json st net
    match g.val with
    | some (Json.arr xs) => ⟨xs, g.st, g.net, g.prints, g.sleeps⟩
    | _ => ⟨[], g.st, g.net, g.prints, g.sleeps⟩
  | Provider.mailtm =>
    let r := mailtm_fetch_domains net
    ⟨r.1, st, r.2, [], []⟩

/-- _fallback_1secmail_random: purely local, consumes no oracle entry.
fbUname is the random username draw, fbPick the random.choice draw. -/
def fallback_1secmail_random (st : GenState) (fbUname : String) (fbPick : Nat) :
    Json × GenState :=
  let domain := ["1secmail.com", "1secmail.org", "1secmail.net"].getD (fbPick % 3)
    "1secmail.com"
  (Json.str (fbUname ++ "@" ++ domain),
   { st with login := Json.str fbUname, domain := Json.str domain,
             email := Json.str (fbUname ++ "@" ++ domain) })

/-- The except branch of _mailtm_create_account: print the error, drop the
provider to 1secmail and synthesize a purely local identity. Consumes no
oracle entry. -/
def mailtm_error_fallback (st : GenState) (net : List NetResp)
    (msg : String) (fbUname : String) (fbPick : Nat) : Eff Json :=
  let r := fallback_1secmail_random { st with provider := Provider.onesecmail }
    fbUname fbPick
  ⟨r.1, r.2, net, ["❌ mail.tm error: " ++ msg], []⟩

/-- Lines 258-265 of the source: store token / address / account id, rebuild
email, login and domain from the server-returned account address, set the
provider tag and return the address. Splitting the address raises when the
stored address is a truthy non-string, in which case the outer except falls
back (with the credential fields already mutated). -/
def mailtm_store_identity (st : GenState) (net : List NetResp)
    (acc tok : Json) (fbUname : String) (fbPick : Nat) : Eff Json :=
  match tok.pyGet "token" with
  | none => mailtm_error_fallback st net "token response is not an object" fbUname fbPick
  | some tokenVal =>
    let st1 := { st with mailtm_token := tokenVal }
    match acc.pyGet "address", acc.pyGet "id" with
    | some addrVal, some idVal =>
      let st2 := { st1 with mailtm_address := addrVal,
                            mailtm_account_id := idVal, email := addrVal }
      if addrVal.truthy then
        match addrVal with
        | Json.str a =>
          let st3 := { st2 with
            login := Json.str ((pySplit a '@').headD ""),
            domain := if pyContains a '@'
                      then Json.str (((pySplit a '@').get? 1).getD "")
                      else Json.null,
            provider := Provider.mailtm }
          ⟨Json.str a, st3, net, [], []⟩
        | _ =>
          mailtm_error_fallback st2 net "address has no attribute split" fbUname fbPick
      else
        ⟨addrVal, { st2 with login := Json.null, domain := Json.null,
                             provider := Provider.mailtm }, net, [], []⟩
    | _, _ =>
      mailtm_error_fallback st1 net "account response is not an object" fbUname fbPick

/-- _mailtm_create_account. Consumes one oracle entry for the domain list,
one for POST /accounts and, if that one parsed, one for POST /token.
mtLocal is the random local-part draw; fbUname / fbPick feed the fallback. -/
def mailtm_create_account (st : GenState) (net : List NetResp)
    (custom_local : Option String) (domain_arg : Option String)
    (mtLocal : String) (fbUname : String) (fbPick : Nat) : Eff Json :=
  let d := mailtm_fetch_domains net
  let doms := d.1
  let net1 := d.2
  let use_domain : Json :=
    match domain_arg with
    | some dom => if dom != "" then Json.str dom else doms.headD Json.null
    | none => doms.headD Json.null
  let localPart : String :=
    match custom_local with
    | some s => if s != "" then s else mtLocal
    | none => mtLocal
  -- the request payload address (unobserved by the positional oracle)
  let _address : Json :=
    if use_domain.truthy then Json.str (localPart ++ "@" ++ pyStr use_domain)
    else Json.null
  match net1 with
  | [] => mailtm_error_fallback st [] "connection error" fbUname fbPick
  | NetResp.exn m :: rest => mailtm_error_fallback st rest m fbUname fbPick
  | NetResp.http statusA bodyA :: rest =>
    if 400 ≤ statusA ∧ statusA < 600 then
      mailtm_error_fallback st rest (http_error_str statusA) fbUname fbPick
    else
      match bodyA with
      | none => mailtm_error_fallback st rest "account response is not JSON" fbUname fbPick
      | some acc =>
        -- the token request payload evaluates acc.get("address") first
        match acc.pyGet "address" with
        | none =>
          mailtm_error_fallback st rest "account response is not an object" fbUname fbPick
        | some _ =>
          match rest with
          | [] => mailtm_error_fallback st [] "connection error" fbUname fbPick
          | NetResp.exn m :: rest2 => mailtm_error_fallback st rest2 m fbUname fbPick
          | NetResp.http statusT bodyT :: rest2 =>
            if 400 ≤ statusT ∧ statusT < 600 then
              mailtm_error_fallback st rest2 (http_error_str statusT) fbUname fbPick
            else
              match bodyT with
              | none =>
                mailtm_error_fallback st rest2 "token response is not JSON" fbUname fbPick
              | some tok => mailtm_store_identity st rest2 acc tok fbUname fbPick

/-- generate_random_email. uname is the random username draw, pick the
random.choice draw over the fetched domain list. -/
def generate_random_email (st : GenState) (net : List NetResp)
    (uname : String) (pick : Nat)
    (mtLocal : String) (fbUname : String) (fbPick : Nat) : Eff Json :=
  match st.provider with
  | Provider.onesecmail =>
    let g := get_available_domains st net
    if g.val.isEmpty || g.st.last_http_status == some 403 then
      let m := mailtm_create_account { g.st with provider := Provider.mailtm }
        g.net none none mtLocal fbUname fbPick
      ⟨m.val, m.st, m.net, g.prints ++ m.prints, g.sleeps ++ m.sleeps⟩
    else
      let domain := g.val.getD (pick % g.val.length) Json.null
      let email := Json.str (uname ++ "@" ++ pyStr domain)
      ⟨email,
        { g.st with login := Json.str uname, domain := domain, email := email },
        g.net, g.prints, g.sleeps⟩
  | Provider.mailtm =>
    mailtm_create_account st net none none mtLocal fbUname fbPick

/-- The domain-list fetch of generate_custom_email when no domain was
requested: domains[0] if domains else "1secmail.com". -/
def generate_custom_fetch_default (st : GenState) (net : List NetResp)
    (username : String) : Eff Json :=
  let g := get_available_domains st net
  let d := g.val.headD (Json.str "1secmail.com")
  let email := Json.str (username ++ "@" ++ pyStr d)
  ⟨email, { g.st with login := Json.str username, domain := d, email := email },
    g.net, g.prints, g.sleeps⟩

/-- generate_custom_email. -/
def generate_custom_email (st : GenState) (net : List NetResp)
    (username : String) (domain_arg : Option String)
    (mtLocal : String) (fbUname : String) (fbPick : Nat) : Eff Json :=
  match st.provider with
  | Provider.onesecmail =>
    match domain_arg with
    | some d =>
      if d != "" then
        let email := Json.str (username ++ "@" ++ d)
        ⟨email,
          { st with login := Json.str username, domain := Json.str d, email := email },
          net, [], []⟩
      else generate_custom_fetch_default st net username
    | none => generate_custom_fetch_default st net username
  | Provider.mailtm =>
    mailtm_create_account st net (some username) domain_arg mtLocal fbUname fbPick

/-- Printed by get_inbox / read_email when no identity is set. -/
def identity_required_msg : String := "❌ Please generate an email first!"

/-- str(e) of the AttributeError raised by calling self._mailtm_ensure_token():
no method of that name is defined anywhere in the repository. -/
def attribute_error_msg : String :=
  "AttributeError: TempMailGenerator object has no attribute mailtm ensure token"

/-- Lines 187-190 of the source: the error print of get_inbox. -/
def inbox_error_msg (st : GenState) : String :=
  if st.last_http_status = some 403 then
    "❌ Error fetching inbox: Access forbidden (403). Try waiting a moment or generating a new email."
  else
    "❌ Error fetching inbox: Provider returned no JSON list"

/-- The per-item normalization of the mail.tm inbox listing; none models an
exception (item or its from field is not of the expected shape). -/
def normalize_message (it : Json) : Option Json := do
  let idv ← it.pyGet "id"
  let fromv ← it.pyGet "from"
  let fromObj := if fromv.truthy then fromv else Json.obj []
  let addr ← fromObj.pyGet "address"
  let subj ← it.pyGet "subject"
  let date ← it.pyGet "receivedAt"
  pure (Json.obj [("id", idv), ("from", addr), ("subject", subj), ("date", date)])

/-- The normalization loop over hydra:member. -/
def normalize_messages : List Json → Option (List Json)
  | [] => some []
  | it :: rest => do
    let m ← normalize_message it
    let ms ← normalize_messages rest
    pure (m :: ms)

/-- The try block of the mail.tm branch of get_inbox; a none first component
models a caught exception. The inbox cache fields are never touched here.
The first step is the guarded self._mailtm_ensure_token() call: no method of
that name exists in the repository, so it raises AttributeError, which this
branch catches. -/
def mailtm_fetch_inbox (st : GenState) (net : List NetResp) :
    Option (List Json) × GenState × List NetResp :=
  if !st.mailtm_token.truthy then
    (none, { st with last_http_error := some attribute_error_msg }, net)
  else
    match net with
    | [] => (none, { st with last_http_error := some "connection error" }, [])
    | NetResp.exn m :: rest => (none, { st with last_http_error := some m }, rest)
    | NetResp.http status body :: rest =>
      let st1 := { st with last_http_status := some status }
      if 400 ≤ status ∧ status < 600 then
        (none, { st1 with last_http_error := some (http_error_str status) }, rest)
      else
        match body with
        | none => (none, { st1 with last_http_error := some "response is not JSON" }, rest)
        | some js =>
          match js.pyGet "hydra:member" with
          | none =>
            (none, { st1 with last_http_error := some "response is not an object" }, rest)
          | some member =>
            let items := if member.truthy then member else Json.arr []
            match items with
            | Json.arr xs =>
              match normalize_messages xs with
              | some ms => (some ms, st1, rest)
              | none =>
                (none, { st1 with last_http_error := some "message item is not an object" }, rest)
            | _ =>
              (none, { st1 with last_http_error := some "hydra member is not a list" }, rest)

/-- get_inbox(now = time.time()). A .error value models an exception
escaping the method: in the 1secmail branch, after a 403 with no stored
mail.tm token, the source calls the nonexistent self._mailtm_ensure_token()
outside any try block, so the AttributeError propagates to the caller. -/
def get_inbox (st : GenState) (net : List NetResp) (now : ℚ) :
    Eff (Except String (List Json)) :=
  if !st.login.truthy || !st.domain.truthy then
    ⟨Except.ok [], st, net, [identity_required_msg], []⟩
  else if now - st.last_inbox_ts < st.min_fetch_interval_sec then
    ⟨Except.ok st.last_inbox, st, net, [], []⟩
  else
    match st.provider with
    | Provider.onesecmail =>
      let g := get_json st net
      match g.val with
      | some (Json.arr msgs) =>
        ⟨Except.ok msgs,
          { g.st with last_inbox := msgs, last_inbox_ts := now },
          g.net, g.prints, g.sleeps⟩
      | _ =>
        if g.st.last_http_status = some 403 then
          let st2 := { g.st with provider := Provider.mailtm }
          if !st2.mailtm_token.truthy then
            ⟨Except.error attribute_error_msg, st2, g.net, g.prints, g.sleeps⟩
          else
            -- despite the fall-through comment in the source, control cannot
            -- enter the else branch of an if statement: it reaches the error
            -- tail below and returns the cached inbox
            ⟨Except.ok st2.last_inbox, st2, g.net,
              g.prints ++ [inbox_error_msg st2], g.sleeps⟩
        else
          ⟨Except.ok g.st.last_inbox, g.st, g.net,
            g.prints ++ [inbox_error_msg g.st], g.sleeps⟩
    | Provider.mailtm =>
      let r := mailtm_fetch_inbox st net
      match r.1 with
      | some ms =>
        ⟨Except.ok ms, { r.2.1 with last_inbox := ms, last_inbox_ts := now },
          r.2.2, [], []⟩
      | none =>
        ⟨Except.ok r.2.1.last_inbox, r.2.1, r.2.2, [inbox_error_msg r.2.1], []⟩

/-- Printed by read_email on any failure. -/
def read_error_msg : String := "❌ Error reading email: Provider returned no JSON object"

/-- Crafting of the mail.tm read_email result dict; none models an exception
(response or its from field not of the expected shape). -/
def mailtm_read_craft (it : Json) : Option Json := do
  let t ← it.pyGet "text"
  let i ← it.pyGet "intro"
  let body := if t.truthy then t else if i.truthy then i else Json.str ""
  let idv ← it.pyGet "id"
  let fromv ← it.pyGet "from"
  let fromObj := if fromv.truthy then fromv else Json.obj []
  let addr ← fromObj.pyGet "address"
  let subj ← it.pyGet "subject"
  let date ← it.pyGet "receivedAt"
  pure (Json.obj [("id", idv), ("from", addr), ("subject", subj), ("date", date),
                  ("textBody", body), ("body", body)])

/-- The try block of the mail.tm branch of read_email; none models a caught
exception (including the AttributeError from the guarded nonexistent
self._mailtm_ensure_token() call when no token is stored). -/
def mailtm_read_fetch (st : GenState) (net : List NetResp) :
    Option Json × GenState × List NetResp :=
  if !st.mailtm_token.truthy then
    (none, { st with last_http_error := some attribute_error_msg }, net)
  else
    match net with
    | [] => (none, { st with last_http_error := some "connection error" }, [])
    | NetResp.exn m :: rest => (none, { st with last_http_error := some m }, rest)
    | NetResp.http status body :: rest =>
      let st1 := { st with last_http_status := some status }
      if 400 ≤ status ∧ status < 600 then
        (none, { st1 with last_http_error := some (http_error_str status) }, rest)
      else
        match body with
        | none => (none, { st1 with last_http_error := some "response is not JSON" }, rest)
        | some it =>
          match mailtm_read_craft it with
          | some d => (some d, st1, rest)
          | none =>
            (none, { st1 with last_http_error := some "response is not an object" }, rest)

/-- read_email. The message id only appears inside the request URL, which
the positional oracle does not inspect, so it is not a parameter here. -/
def read_email (st : GenState) (net : List NetResp) : Eff Json :=
  if !st.login.truthy || !st.domain.truthy then
    ⟨Json.obj [], st, net, [identity_required_msg], []⟩
  else
    match st.provider with
    | Provider.onesecmail =>
      let g := get_json st net
      match g.val with
      | some (Json.obj fs) => ⟨Json.obj fs, g.st, g.net, g.prints, g.sleeps⟩
      | _ => ⟨Json.obj [], g.st, g.net, g.prints ++ [read_error_msg], g.sleeps⟩
    | Provider.mailtm =>
      let r := mailtm_read_fetch st net
      match r.1 with
      | some d => ⟨d, r.2.1, r.2.2, [], []⟩
      | none => ⟨Json.obj [], r.2.1, r.2.2, [read_error_msg], []⟩

/-! Definitions supporting the claim statements. -/

/-- isinstance(data, list) on the result of _get_json. -/
def is_json_list : Option Json → Bool
  | some (Json.arr _) => true
  | _ => false

/-- isinstance(data, dict) on the result of _get_json. -/
def is_json_obj : Option Json → Bool
  | some (Json.obj _) => true
  | _ => false

/-- A requests call outcome on which resp.raise_for_status() or resp.json()
raises: a transport error, a 400-599 status, or a non-JSON body. -/
def resp_fails : NetResp → Bool
  | NetResp.exn _ => true
  | NetResp.http status body => decide (400 ≤ status ∧ status < 600) || body.isNone

/-- The state left on the loop state by an HTTPError handler for status. -/
def set_status_error (s : GenState) (status : Nat) : GenState :=
  { s with last_http_status := some status, last_http_error := some (http_error_str status) }

/-- The spec invariant: whenever email, login and domain are all set
(not None), the email string is the login string, "@", the domain string. -/
def email_consistent (s : GenState) : Prop :=
  s.login.isNull = false → s.domain.isNull = false → s.email.isNull = false →
    pyStr s.email = pyStr s.login ++ "@" ++ pyStr s.domain

/-- The string contains at most one occurrence of the character. -/
def at_most_one (s : String) (c : Char) : Prop := s.data.count c ≤ 1

/-- Fields of GenState that _get_json and the mail.tm fetch helpers never
write: everything except last_http_status and last_http_error. -/
def untouched (s t : GenState) : Prop :=
  t.email = s.email ∧ t.login = s.login ∧ t.domain = s.domain ∧
  t.last_inbox = s.last_inbox ∧ t.last_inbox_ts = s.last_inbox_ts ∧
  t.min_fetch_interval_sec = s.min_fetch_interval_sec ∧
  t.provider = s.provider ∧ t.mailtm_token = s.mailtm_token ∧
  t.mailtm_address = s.mailtm_address ∧ t.mailtm_account_id = s.mailtm_account_id

/-! Concrete scenario data for counterexamples and failing inputs. -/

/-- An identity on 1secmail with no mail.tm credentials, as left by a
successful generate_random_email, with an old enough cache timestamp. -/
def alice_state : GenState :=
  { initState with login := Json.str "alice", domain := Json.str "1secmail.com",
                   email := Json.str "alice@1secmail.com" }

/-- Three HTTP 403 responses: 1secmail blocking all three _get_json attempts. -/
def net_403x3 : List NetResp :=
  [NetResp.http 403 none, NetResp.http 403 none, NetResp.http 403 none]

/-- A cached message summary, as stored by a previous successful fetch. -/
def cached_msg : Json :=
  Json.obj [("id", Json.num 1), ("from", Json.str "sender@example.com"),
            ("subject", Json.str "hello"), ("date", Json.str "2024-01-01")]

/-- alice_state with one cached message fetched at time 100. -/
def alice_cached_state : GenState :=
  { alice_state with last_inbox := [cached_msg], last_inbox_ts := 100 }

/-- Identity set, one cached message, no mail.tm token: input for the C7
counterexample. -/
def bob_cached_state : GenState :=
  { initState with login := Json.str "bob", domain := Json.str "1secmail.org",
                   email := Json.str "bob@1secmail.org",
                   last_inbox := [cached_msg] }

/-- Oracle for the C2 counterexample: mail.tm returns a healthy domain list,
then an account whose address contains two at-signs, then a token. -/
def net_c2 : List NetResp :=
  [NetResp.http 200 (some (Json.obj
     [("hydra:member", Json.arr [Json.obj [("domain", Json.str "mail.tm")]])])),
   NetResp.http 201 (some (Json.obj
     [("address", Json.str "a@b@c"), ("id", Json.str "acc1")])),
   NetResp.http 200 (some (Json.obj [("token", Json.str "tok1")]))]

/-! Helper lemmas. -/

/-- untouched is transitive. -/
theorem untouched_trans {a b c : GenState} (h1 : untouched a b) (h2 : untouched b c) :
    untouched a c :=
  ⟨h2.1.trans h1.1, h2.2.1.trans h1.2.1, h2.2.2.1.trans h1.2.2.1,
   h2.2.2.2.1.trans h1.2.2.2.1, h2.2.2.2.2.1.trans h1.2.2.2.2.1,
   h2.2.2.2.2.2.1.trans h1.2.2.2.2.2.1, h2.2.2.2.2.2.2.1.trans h1.2.2.2.2.2.2.1,
   h2.2.2.2.2.2.2.2.1.trans h1.2.2.2.2.2.2.2.1,
   h2.2.2.2.2.2.2.2.2.1.trans h1.2.2.2.2.2.2.2.2.1,
   h2.2.2.2.2.2.2.2.2.2.trans h1.2.2.2.2.2.2.2.2.2⟩

/-- The _get_json loop consumes at most one oracle entry per remaining
iteration. -/
theorem get_json_loop_net_le (fuel : Nat) :
    ∀ (attempt : Nat) (st : GenState) (net : List NetResp),
      net.length ≤ (get_json_loop fuel attempt st net).net.length + fuel := by
  induction fuel with
  | zero => intro attempt st net; exact Nat.le_add_right net.length 0
  | succ n ih =>
    intro attempt st net
    cases net with
    | nil => simp [get_json_loop]
    | cons r rest =>
      cases r with
      | exn m => exact Nat.succ_le_succ (Nat.le_add_right rest.length n)
      | http status body =>
        simp only [get_json_loop]
        split
        · split
          · exact Nat.succ_le_succ (ih (attempt + 1) _ rest)
          · exact Nat.succ_le_succ (Nat.le_add_right rest.length n)
        · split
          · split
            · exact Nat.succ_le_succ (ih (attempt + 1) _ rest)
            · exact Nat.succ_le_succ (Nat.le_add_right rest.length n)
          · cases body
            · exact Nat.succ_le_succ (Nat.le_add_right rest.length n)
            · exact Nat.succ_le_succ (Nat.le_add_right rest.length n)

/-- The _get_json loop only ever writes last_http_status and
last_http_error. -/
theorem get_json_loop_untouched (fuel : Nat) :
    ∀ (attempt : Nat) (st : GenState) (net : List NetResp),
      untouched st (get_json_loop fuel attempt st net).st := by
  induction fuel with
  | zero =>
    intro attempt st net
    exact ⟨rfl, rfl, rfl, rfl, rfl, rfl, rfl, rfl, rfl, rfl⟩
  | succ n ih =>
    intro attempt st net
    cases net with
    | nil => exact ⟨rfl, rfl, rfl, rfl, rfl, rfl, rfl, rfl, rfl, rfl⟩
    | cons r rest =>
      cases r with
      | exn m => exact ⟨rfl, rfl, rfl, rfl, rfl, rfl, rfl, rfl, rfl, rfl⟩
      | http status body =>
        simp only [get_json_loop]
        split
        · split
          · exact untouched_trans
              ⟨rfl, rfl, rfl, rfl, rfl, rfl, rfl, rfl, rfl, rfl⟩
              (ih (attempt + 1) _ rest)
          · exact ⟨rfl, rfl, rfl, rfl, rfl, rfl, rfl, rfl, rfl, rfl⟩
        · split
          · split
            · exact untouched_trans
                ⟨rfl, rfl, rfl, rfl, rfl, rfl, rfl, rfl, rfl, rfl⟩
                (ih (attempt + 1) _ rest)
            · exact ⟨rfl, rfl, rfl, rfl, rfl, rfl, rfl, rfl, rfl, rfl⟩
          · cases body
            · exact ⟨rfl, rfl, rfl, rfl, rfl, rfl, rfl, rfl, rfl, rfl⟩
            · exact ⟨rfl, rfl, rfl, rfl, rfl, rfl, rfl, rfl, rfl, rfl⟩

/-- _get_json only ever writes last_http_status and last_http_error. -/
theorem get_json_untouched (st : GenState) (net : List NetResp) :
    untouched st (get_json st net).st :=
  get_json_loop_untouched 3 0
    { st with last_http_status := none, last_http_error := none } net

/-! Claim theorems. -/

/-- Claim C1 (code bug): on the OneSecMail provider, when get_inbox observes
HTTP 403 from the provider (three 403 responses exhaust the _get_json
retries), the provider tag is switched to MailTM, but no MailTM identity is
created and the listing is not retried: the source calls the nonexistent
method self._mailtm_ensure_token() outside any try block, so the call
raises AttributeError to the caller, with the whole oracle already consumed
(out.net = [], so no retry request was or could have been issued). -/
theorem c1_inbox_403_failover_raises :
    (get_inbox alice_state net_403x3 100).val = Except.error attribute_error_msg ∧
    (get_inbox alice_state net_403x3 100).st.provider = Provider.mailtm ∧
    (get_inbox alice_state net_403x3 100).net = [] := by
  have hthr : ¬((100 : ℚ) - alice_state.last_inbox_ts < alice_state.min_fetch_interval_sec) := by
    show ¬((100 : ℚ) - 0 < 6)
    norm_num
  refine ⟨?_, ?_, ?_⟩ <;>
    · simp only [get_inbox]
      rw [if_neg (by decide), if_neg hthr]
      rfl

/-- Claim C6 (code bug): replacing the active identity does not invalidate
the cached inbox entry. Starting from an identity for alice with one cached
message fetched at time 100, generate_custom_email replaces the identity
with bob@1secmail.org without any network call, the cache still holds the
old message, and a get_inbox at time 103 (inside the throttle window)
returns the previous identity's cached message for the new identity. -/
theorem c6_cache_survives_identity_change :
    (generate_custom_email alice_cached_state [] "bob" (some "1secmail.org") "m" "f" 0).st.email
      = Json.str "bob@1secmail.org" ∧
    (generate_custom_email alice_cached_state [] "bob" (some "1secmail.org") "m" "f" 0).st.last_inbox
      = [cached_msg] ∧
    (get_inbox
      (generate_custom_email alice_cached_state [] "bob" (some "1secmail.org") "m" "f" 0).st
      [] 103).val = Except.ok [cached_msg] := by
  refine ⟨rfl, rfl, ?_⟩
  have hthr : ((103 : ℚ) -
      (generate_custom_email alice_cached_state [] "bob" (some "1secmail.org") "m" "f" 0).st.last_inbox_ts <
      (generate_custom_email alice_cached_state [] "bob" (some "1secmail.org") "m" "f" 0).st.min_fetch_interval_sec) := by
    show ((103 : ℚ) - 100 < 6)
    norm_num
  simp only [get_inbox]
  rw [if_neg (by decide), if_pos hthr]
  rfl

/-- Claim C3: when get_inbox is called with an identity set and less than
6 seconds after the last successful fetch, it returns exactly the cached
message list (even when empty), makes no network request, prints nothing
and sleeps nothing, and leaves the state unchanged. -/
theorem c3_rate_limited_inbox_is_cached (s : GenState) (net : List NetResp) (now : ℚ)
    (hl : s.login.truthy = true) (hd : s.domain.truthy = true)
    (hmin : s.min_fetch_interval_sec = 6) (ht : now - s.last_inbox_ts < 6) :
    get_inbox s net now = ⟨Except.ok s.last_inbox, s, net, [], []⟩ := by
  simp only [get_inbox, hl, hd, hmin]
  rw [if_neg (by decide), if_pos ht]

/-- Witness for C3 at a concrete input: identity set, empty cache fetched at
time 10, second call at time 12. -/
theorem c3_witness :
    get_inbox { alice_state with last_inbox_ts := 10 } net_403x3 12 =
      ⟨Except.ok [], { alice_state with last_inbox_ts := 10 }, net_403x3, [], []⟩ :=
  c3_rate_limited_inbox_is_cached { alice_state with last_inbox_ts := 10 }
    net_403x3 12 rfl rfl rfl (by norm_num)

/-- Claim C9: a get_inbox or read_email call with no identity set (login or
domain not truthy) returns the identity-required result directly, with the
state unchanged (in particular no provider switch), the oracle unchanged
(no network request) and no sleeps (no retry). -/
theorem c9_identity_required_direct (s : GenState) (net : List NetResp) (now : ℚ)
    (h : s.login.truthy = false ∨ s.domain.truthy = false) :
    get_inbox s net now = ⟨Except.ok [], s, net, [identity_required_msg], []⟩ ∧
    read_email s net = ⟨Json.obj [], s, net, [identity_required_msg], []⟩ := by
  rcases h with h | h <;> exact ⟨by simp [get_inbox, h], by simp [read_email, h]⟩

/-- Witness for C9 at a concrete input: the freshly initialized generator. -/
theorem c9_witness :
    get_inbox initState net_403x3 100 =
      ⟨Except.ok [], initState, net_403x3, [identity_required_msg], []⟩ ∧
    read_email initState net_403x3 =
      ⟨Json.obj [], initState, net_403x3, [identity_required_msg], []⟩ :=
  c9_identity_required_direct initState net_403x3 100 (Or.inl rfl)

/-- Counterexample for C2: a successful MailTM account creation whose
server-returned address contains two at-signs. The call succeeds and stores
email a@b@c, login a, domain b, all three set, and the stored email differs
from login + at + domain. -/
theorem c2_counterexample :
    (mailtm_create_account initState net_c2 none none "xyz" "fb" 0).st.email = Json.str "a@b@c" ∧
    (mailtm_create_account initState net_c2 none none "xyz" "fb" 0).st.login = Json.str "a" ∧
    (mailtm_create_account initState net_c2 none none "xyz" "fb" 0).st.domain = Json.str "b" ∧
    pyStr (mailtm_create_account initState net_c2 none none "xyz" "fb" 0).st.email ≠
      pyStr (mailtm_create_account initState net_c2 none none "xyz" "fb" 0).st.login ++ "@" ++
      pyStr (mailtm_create_account initState net_c2 none none "xyz" "fb" 0).st.domain :=
  ⟨rfl, rfl, rfl, by decide⟩

/-- Counterexample for C4: (i) a transport-level failure on the first
attempt is not retried: _get_json returns immediately, leaving the second
oracle response unconsumed and sleeping nothing; (ii) after a 403 on the
first attempt, the 1.5 second backoff is slept twice (once inside the try,
once in the handler) before the second attempt, not once. -/
theorem c4_counterexample :
    ((get_json initState [NetResp.exn "timed out",
        NetResp.http 200 (some (Json.arr []))]).net
      = [NetResp.http 200 (some (Json.arr []))] ∧
     (get_json initState [NetResp.exn "timed out",
        NetResp.http 200 (some (Json.arr []))]).val = none ∧
     (get_json initState [NetResp.exn "timed out",
        NetResp.http 200 (some (Json.arr []))]).sleeps = []) ∧
    (get_json initState [NetResp.http 403 none,
        NetResp.http 200 (some (Json.arr []))]).sleeps = [backoff 0, backoff 0] :=
  ⟨⟨rfl, rfl, rfl⟩, rfl⟩

/-- Counterexample for C7: a get_inbox call whose network fetch fails with
HTTP 403 (retries exhausted) while a cached entry exists and no MailTM
token is stored does not return the cached entry: it raises AttributeError
(from the nonexistent self._mailtm_ensure_token) instead. -/
theorem c7_counterexample :
    bob_cached_state.last_inbox = [cached_msg] ∧
    (get_inbox bob_cached_state net_403x3 50).val = Except.error attribute_error_msg := by
  have hthr : ¬((50 : ℚ) - bob_cached_state.last_inbox_ts <
      bob_cached_state.min_fetch_interval_sec) := by
    show ¬((50 : ℚ) - 0 < 6)
    norm_num
  refine ⟨rfl, ?_⟩
  simp only [get_inbox]
  rw [if_neg (by decide), if_neg hthr]
  rfl

/-- The mail.tm domain fetch consumes exactly its one response. -/
theorem mailtm_fetch_domains_snd (r : NetResp) (tail : List NetResp) :
    (mailtm_fetch_domains (r :: tail)).2 = tail := by
  cases r with
  | exn m => rfl
  | http status body =>
    simp only [mailtm_fetch_domains]
    split
    · rfl
    · cases body with
      | none => rfl
      | some js => rcases h : hydra_domain_list js with _ | ds <;> simp [h]

/-- What the except branch of _mailtm_create_account produces: provider
dropped to 1secmail, an email assembled from the fallback username and one
of the three hardcoded domains, and no oracle consumption. -/
theorem mailtm_error_fallback_spec (st : GenState) (net : List NetResp)
    (msg fbU : String) (fbP : Nat) :
    (mailtm_error_fallback st net msg fbU fbP).st.provider = Provider.onesecmail ∧
    ((mailtm_error_fallback st net msg fbU fbP).st.domain = Json.str "1secmail.com" ∨
     (mailtm_error_fallback st net msg fbU fbP).st.domain = Json.str "1secmail.org" ∨
     (mailtm_error_fallback st net msg fbU fbP).st.domain = Json.str "1secmail.net") ∧
    (mailtm_error_fallback st net msg fbU fbP).st.email =
      Json.str (fbU ++ "@" ++ pyStr (mailtm_error_fallback st net msg fbU fbP).st.domain) ∧
    (mailtm_error_fallback st net msg fbU fbP).val =
      (mailtm_error_fallback st net msg fbU fbP).st.email ∧
    (mailtm_error_fallback st net msg fbU fbP).net = net := by
  have h : fbP % 3 = 0 ∨ fbP % 3 = 1 ∨ fbP % 3 = 2 := by omega
  rcases h with h | h | h <;>
    simp [mailtm_error_fallback, fallback_1secmail_random, h, pyStr]

/-- get_available_domains only ever writes last_http_status and
last_http_error. -/
theorem get_available_domains_untouched (s : GenState) (net : List NetResp) :
    untouched s (get_available_domains s net).st := by
  cases hp : s.provider with
  | onesecmail =>
    simp only [get_available_domains, hp]
    cases hv : (get_json s net).val with
    | none => exact get_json_untouched s net
    | some j =>
      cases j <;> simp only [] <;> exact get_json_untouched s net
  | mailtm =>
    simp only [get_available_domains, hp]
    exact ⟨rfl, rfl, rfl, rfl, rfl, rfl, rfl, rfl, rfl, rfl⟩

/-- Claim C10: generate_custom_email on OneSecMail with no desired domain is
total and silent about failures: it returns username at the first fetched
domain, or username@1secmail.com when the domain fetch fails or comes back
empty, stores that same address, and never switches provider (in
particular not even when the last observed HTTP status is 403, since the
hypothesis quantifies over every state with provider OneSecMail). -/
theorem c10_custom_email_total (s : GenState) (net : List NetResp)
    (username mtL fbU : String) (fbP : Nat)
    (hp : s.provider = Provider.onesecmail) :
    (generate_custom_email s net username none mtL fbU fbP).st.provider
      = Provider.onesecmail ∧
    (generate_custom_email s net username none mtL fbU fbP).val =
      Json.str (username ++ "@" ++
        pyStr ((get_available_domains s net).val.headD (Json.str "1secmail.com"))) ∧
    (generate_custom_email s net username none mtL fbU fbP).st.email =
      (generate_custom_email s net username none mtL fbU fbP).val ∧
    ((get_available_domains s net).val = [] →
      (generate_custom_email s net username none mtL fbU fbP).val =
        Json.str (username ++ "@" ++ "1secmail.com")) := by
  have hu := get_available_domains_untouched s net
  refine ⟨?_, ?_, ?_, ?_⟩
  · simp only [generate_custom_email, hp, generate_custom_fetch_default]
    exact hu.2.2.2.2.2.2.1.trans hp
  · simp only [generate_custom_email, hp, generate_custom_fetch_default]
  · simp only [generate_custom_email, hp, generate_custom_fetch_default]
  · intro hnil
    simp only [generate_custom_email, hp, generate_custom_fetch_default, hnil]
    rfl

/-- Witness for C10 at a concrete input: the domain fetch is blocked with
403 three times, yet the call returns username@1secmail.com on OneSecMail. -/
theorem c10_witness :
    (generate_custom_email alice_state net_403x3 "carol" none "m" "f" 0).st.provider
      = Provider.onesecmail ∧
    (generate_custom_email alice_state net_403x3 "carol" none "m" "f" 0).val =
      Json.str ("carol" ++ "@" ++ "1secmail.com") :=
  ⟨(c10_custom_email_total alice_state net_403x3 "carol" "m" "f" 0 rfl).1,
   (c10_custom_email_total alice_state net_403x3 "carol" "m" "f" 0 rfl).2.2.2 rfl⟩

/-- Claim C5: during _mailtm_create_account, if the POST /accounts request
fails with any error (transport error, 400-599 status, or non-JSON body),
or the POST /token request that follows a parsed account response fails the
same way, the call still produces an identity: provider dropped to
OneSecMail, the domain one of the three hardcoded fallback domains, the
returned value the stored fallback email, and the fallback itself consumes
no further oracle entry (the remaining stream is exactly what follows the
failing response). -/
theorem c5_mailtm_failure_local_fallback (s : GenState) (r1 rAcc : NetResp)
    (rest : List NetResp) (cl da : Option String) (mtL fbU : String) (fbP : Nat) :
    (resp_fails rAcc = true →
      (mailtm_create_account s (r1 :: rAcc :: rest) cl da mtL fbU fbP).st.provider
        = Provider.onesecmail ∧
      ((mailtm_create_account s (r1 :: rAcc :: rest) cl da mtL fbU fbP).st.domain
          = Json.str "1secmail.com" ∨
       (mailtm_create_account s (r1 :: rAcc :: rest) cl da mtL fbU fbP).st.domain
          = Json.str "1secmail.org" ∨
       (mailtm_create_account s (r1 :: rAcc :: rest) cl da mtL fbU fbP).st.domain
          = Json.str "1secmail.net") ∧
      (mailtm_create_account s (r1 :: rAcc :: rest) cl da mtL fbU fbP).val =
        (mailtm_create_account s (r1 :: rAcc :: rest) cl da mtL fbU fbP).st.email ∧
      (mailtm_create_account s (r1 :: rAcc :: rest) cl da mtL fbU fbP).net = rest) ∧
    (∀ (statusA : Nat) (accFields : List (String × Json)) (rTok : NetResp)
        (rest2 : List NetResp),
      rAcc = NetResp.http statusA (some (Json.obj accFields)) →
      ¬(400 ≤ statusA ∧ statusA < 600) →
      rest = rTok :: rest2 →
      resp_fails rTok = true →
      (mailtm_create_account s (r1 :: rAcc :: rest) cl da mtL fbU fbP).st.provider
        = Provider.onesecmail ∧
      ((mailtm_create_account s (r1 :: rAcc :: rest) cl da mtL fbU fbP).st.domain
          = Json.str "1secmail.com" ∨
       (mailtm_create_account s (r1 :: rAcc :: rest) cl da mtL fbU fbP).st.domain
          = Json.str "1secmail.org" ∨
       (mailtm_create_account s (r1 :: rAcc :: rest) cl da mtL fbU fbP).st.domain
          = Json.str "1secmail.net") ∧
      (mailtm_create_account s (r1 :: rAcc :: rest) cl da mtL fbU fbP).net = rest2) := by
  have hd := mailtm_fetch_domains_snd r1 (rAcc :: rest)
  constructor
  · intro hfail
    rcases hp : mailtm_fetch_domains (r1 :: (rAcc :: rest)) with ⟨doms, net1⟩
    have hnet1 : net1 = rAcc :: rest := by rw [hp] at hd; exact hd
    subst hnet1
    cases rAcc with
    | exn m =>
      simp only [mailtm_create_account, hp]
      exact ⟨(mailtm_error_fallback_spec s rest m fbU fbP).1,
        (mailtm_error_fallback_spec s rest m fbU fbP).2.1,
        (mailtm_error_fallback_spec s rest m fbU fbP).2.2.2.1,
        (mailtm_error_fallback_spec s rest m fbU fbP).2.2.2.2⟩
    | http statusA bodyA =>
      simp only [mailtm_create_account, hp]
      by_cases hst : 400 ≤ statusA ∧ statusA < 600
      · rw [if_pos hst]
        exact ⟨(mailtm_error_fallback_spec s rest _ fbU fbP).1,
          (mailtm_error_fallback_spec s rest _ fbU fbP).2.1,
          (mailtm_error_fallback_spec s rest _ fbU fbP).2.2.2.1,
          (mailtm_error_fallback_spec s rest _ fbU fbP).2.2.2.2⟩
      · rw [if_neg hst]
        have hnone : bodyA = none := by
          cases bodyA with
          | none => rfl
          | some j =>
            exfalso
            simp [resp_fails, hst] at hfail
        subst hnone
        exact ⟨(mailtm_error_fallback_spec s rest _ fbU fbP).1,
          (mailtm_error_fallback_spec s rest _ fbU fbP).2.1,
          (mailtm_error_fallback_spec s rest _ fbU fbP).2.2.2.1,
          (mailtm_error_fallback_spec s rest _ fbU fbP).2.2.2.2⟩
  · intro statusA accFields rTok rest2 hacc hstA hrest hfail
    subst hacc
    subst hrest
    rcases hp : mailtm_fetch_domains
        (r1 :: (NetResp.http statusA (some (Json.obj accFields)) :: (rTok :: rest2)))
      with ⟨doms, net1⟩
    have hnet1 : net1 = NetResp.http statusA (some (Json.obj accFields)) :: (rTok :: rest2) := by
      rw [hp] at hd; exact hd
    subst hnet1
    simp only [mailtm_create_account, hp]
    rw [if_neg hstA]
    simp only [Json.pyGet]
    cases rTok with
    | exn m =>
      exact ⟨(mailtm_error_fallback_spec s rest2 m fbU fbP).1,
        (mailtm_error_fallback_spec s rest2 m fbU fbP).2.1,
        (mailtm_error_fallback_spec s rest2 m fbU fbP).2.2.2.2⟩
    | http statusT bodyT =>
      dsimp only
      by_cases hstT : 400 ≤ statusT ∧ statusT < 600
      · rw [if_pos hstT]
        exact ⟨(mailtm_error_fallback_spec s rest2 _ fbU fbP).1,
          (mailtm_error_fallback_spec s rest2 _ fbU fbP).2.1,
          (mailtm_error_fallback_spec s rest2 _ fbU fbP).2.2.2.2⟩
      · rw [if_neg hstT]
        have hnone : bodyT = none := by
          cases bodyT with
          | none => rfl
          | some j =>
            exfalso
            simp [resp_fails, hstT] at hfail
        subst hnone
        exact ⟨(mailtm_error_fallback_spec s rest2 _ fbU fbP).1,
          (mailtm_error_fallback_spec s rest2 _ fbU fbP).2.1,
          (mailtm_error_fallback_spec s rest2 _ fbU fbP).2.2.2.2⟩

/-- Witness for C5 at a concrete input: the domain fetch succeeds but the
account-creation POST times out; the provider and the remaining oracle
after the call show the local fallback. -/
theorem c5_witness :
    (mailtm_create_account initState
        [NetResp.http 200 (some (Json.obj [("hydra:member",
            Json.arr [Json.obj [("domain", Json.str "mail.tm")]])])),
         NetResp.exn "timed out"] none none "xyz" "user1" 0).st.provider
      = Provider.onesecmail ∧
    (mailtm_create_account initState
        [NetResp.http 200 (some (Json.obj [("hydra:member",
            Json.arr [Json.obj [("domain", Json.str "mail.tm")]])])),
         NetResp.exn "timed out"] none none "xyz" "user1" 0).net = [] :=
  ⟨((c5_mailtm_failure_local_fallback initState
      (NetResp.http 200 (some (Json.obj [("hydra:member",
          Json.arr [Json.obj [("domain", Json.str "mail.tm")]])])))
      (NetResp.exn "timed out") [] none none "xyz" "user1" 0).1 rfl).1,
   ((c5_mailtm_failure_local_fallback initState
      (NetResp.http 200 (some (Json.obj [("hydra:member",
          Json.arr [Json.obj [("domain", Json.str "mail.tm")]])])))
      (NetResp.exn "timed out") [] none none "xyz" "user1" 0).1 rfl).2.2.2⟩

/-- Claim C8: when the provider returns no matching message object
(OneSecMail: the parsed response is not a JSON dict; MailTM: the guarded
fetch-and-craft raises or fails, i.e. yields none), read_email returns the
empty dict with the read-error print - the code's encoding of
MessageNotFound - and never a crafted partial message detail. -/
theorem c8_missing_message_not_found (s : GenState) (net : List NetResp)
    (hl : s.login.truthy = true) (hd : s.domain.truthy = true) :
    (s.provider = Provider.onesecmail →
      is_json_obj (get_json s net).val = false →
      (read_email s net).val = Json.obj [] ∧
      read_error_msg ∈ (read_email s net).prints) ∧
    (s.provider = Provider.mailtm →
      (mailtm_read_fetch s net).1 = none →
      (read_email s net).val = Json.obj [] ∧
      (read_email s net).prints = [read_error_msg]) := by
  constructor
  · intro hp hobj
    simp only [read_email, hl, hd, hp]
    rw [if_neg (by decide)]
    cases hv : (get_json s net).val with
    | none => simp [hv]
    | some j =>
      cases j with
      | obj fs => rw [hv] at hobj; simp [is_json_obj] at hobj
      | null => simp [hv]
      | bool b => simp [hv]
      | num n => simp [hv]
      | str a => simp [hv]
      | arr xs => simp [hv]
  · intro hp hfetch
    simp only [read_email, hl, hd, hp]
    rw [if_neg (by decide)]
    rw [hfetch]
    exact ⟨rfl, rfl⟩

/-- Witness for C8 at a concrete input: 1secmail answers the readMessage
query with a 200 whose body is not JSON (the plain-text not-found page), so
_get_json yields None and read_email returns the empty dict. -/
theorem c8_witness :
    (read_email alice_state [NetResp.http 200 none]).val = Json.obj [] ∧
    read_error_msg ∈ (read_email alice_state [NetResp.http 200 none]).prints :=
  (c8_missing_message_not_found alice_state [NetResp.http 200 none] rfl rfl).1 rfl rfl

/-- The mail.tm inbox fetch never touches the inbox cache fields. -/
theorem mailtm_fetch_inbox_cache (s : GenState) (net : List NetResp) :
    (mailtm_fetch_inbox s net).2.1.last_inbox = s.last_inbox ∧
    (mailtm_fetch_inbox s net).2.1.last_inbox_ts = s.last_inbox_ts := by
  unfold mailtm_fetch_inbox
  split
  · exact ⟨rfl, rfl⟩
  · cases net with
    | nil => exact ⟨rfl, rfl⟩
    | cons r rest =>
      cases r with
      | exn m => exact ⟨rfl, rfl⟩
      | http status body =>
        dsimp only
        split
        · exact ⟨rfl, rfl⟩
        · cases body with
          | none => exact ⟨rfl, rfl⟩
          | some js =>
            rcases hjs : js.pyGet "hydra:member" with _ | member
            · simp [hjs]
            · cases hmt : member.truthy with
              | false => simp [hjs, hmt, normalize_messages]
              | true =>
                cases member with
                | arr xs =>
                  rcases hn : normalize_messages xs with _ | ms <;>
                    simp [hjs, hmt, hn]
                | null => simp [hjs, hmt]
                | bool b => simp [hjs, hmt]
                | num n => simp [hjs, hmt]
                | str a => simp [hjs, hmt]
                | obj fs => simp [hjs, hmt]

/-- Splitting a list with no separator occurrence yields the single chunk. -/
theorem pySplitChars_count_zero (c : Char) :
    ∀ l : List Char, l.count c = 0 → pySplitChars c l = [l] := by
  intro l
  induction l with
  | nil => intro _; rfl
  | cons a as ih =>
    intro h
    rw [List.count_cons] at h
    by_cases hac : a = c
    · subst hac
      simp at h
    · have h0 : as.count c = 0 := by
        rcases Nat.eq_zero_of_add_eq_zero_right h with h0
        exact h0
      simp [pySplitChars, hac, ih h0]

/-- Splitting a list with exactly one separator occurrence yields the two
chunks around it. -/
theorem pySplitChars_count_one (c : Char) :
    ∀ l : List Char, l.count c = 1 →
      ∃ x y, pySplitChars c l = [x, y] ∧ l = x ++ c :: y := by
  intro l
  induction l with
  | nil => intro h; simp at h
  | cons a as ih =>
    intro h
    rw [List.count_cons] at h
    by_cases hac : a = c
    · subst hac
      have h0 : as.count a = 0 := by
        simp at h
        omega
      refine ⟨[], as, ?_, by simp⟩
      simp [pySplitChars, pySplitChars_count_zero a as h0]
    · have h1 : as.count c = 1 := by
        have : (a == c) = false := by simp [hac]
        rw [this] at h
        simpa using h
      obtain ⟨x, y, hs, hl⟩ := ih h1
      refine ⟨a :: x, y, ?_, by rw [hl]; simp⟩
      simp [pySplitChars, hac, hs]

/-- A string with exactly one at-sign (it contains one and counts at most
one) is the first split chunk, an at-sign, and the second split chunk. -/
theorem split_rejoin (a : String) (h1 : a.data.count '@' ≤ 1)
    (hc : pyContains a '@' = true) :
    a = (pySplit a '@').headD "" ++ "@" ++ ((pySplit a '@').get? 1).getD "" := by
  have hpos : 0 < a.data.count '@' :=
    List.count_pos_iff.mpr (by simpa [pyContains] using hc)
  have he : a.data.count '@' = 1 := Nat.le_antisymm h1 hpos
  obtain ⟨x, y, hs, ha⟩ := pySplitChars_count_one '@' a.data he
  have hps : pySplit a '@' = [String.mk x, String.mk y] := by
    simp [pySplit, hs]
  rw [hps]
  show a = String.mk x ++ "@" ++ String.mk y
  calc a = String.mk a.data := rfl
    _ = String.mk (x ++ '@' :: y) := by rw [ha]
    _ = String.mk x ++ "@" ++ String.mk y := by
        show String.mk (x ++ '@' :: y) = String.mk ((x ++ ('@' :: [])) ++ y)
        rw [List.append_assoc]
        rfl

/-- The local 1secmail fallback always satisfies the address invariant. -/
theorem fallback_consistent (st : GenState) (u : String) (p : Nat) :
    email_consistent (fallback_1secmail_random st u p).2 := by
  intro _ _ _
  simp [fallback_1secmail_random, pyStr]

/-- The mail.tm error fallback always satisfies the address invariant. -/
theorem mailtm_error_fallback_consistent (st : GenState) (net : List NetResp)
    (m u : String) (p : Nat) :
    email_consistent (mailtm_error_fallback st net m u p).st :=
  fallback_consistent { st with provider := Provider.onesecmail } u p

/-- After storing a mail.tm identity, either the address invariant holds or
the stored email is a server-returned address with at least two at-signs. -/
theorem mailtm_store_identity_email (st : GenState) (net : List NetResp)
    (acc tok : Json) (u : String) (p : Nat) :
    email_consistent (mailtm_store_identity st net acc tok u p).st ∨
    1 < (pyStr (mailtm_store_identity st net acc tok u p).st.email).data.count '@' := by
  unfold mailtm_store_identity
  cases htok : tok.pyGet "token" with
  | none => exact Or.inl (mailtm_error_fallback_consistent _ _ _ _ _)
  | some tokenVal =>
    cases haddr : acc.pyGet "address" with
    | none => exact Or.inl (mailtm_error_fallback_consistent _ _ _ _ _)
    | some addrVal =>
      cases hid : acc.pyGet "id" with
      | none => exact Or.inl (mailtm_error_fallback_consistent _ _ _ _ _)
      | some idVal =>
        cases htr : addrVal.truthy with
        | false =>
          simp only [htr]
          refine Or.inl ?_
          intro h1 _ _
          simp [Json.isNull] at h1
        | true =>
          simp only [htr]
          cases addrVal with
          | str a =>
            cases hc : pyContains a '@' with
            | false =>
              simp only [hc]
              refine Or.inl ?_
              intro _ h2 _
              simp [Json.isNull] at h2
            | true =>
              simp only [hc]
              by_cases hcnt : a.data.count '@' ≤ 1
              · refine Or.inl ?_
                intro _ _ _
                show a = (pySplit a '@').headD "" ++ "@" ++
                  ((pySplit a '@').get? 1).getD ""
                exact split_rejoin a hcnt hc
              · refine Or.inr ?_
                show 1 < (pyStr (Json.str a)).data.count '@'
                simp [pyStr]
                omega
          | null => exact Or.inl (mailtm_error_fallback_consistent _ _ _ _ _)
          | bool b => exact Or.inl (mailtm_error_fallback_consistent _ _ _ _ _)
          | num n => exact Or.inl (mailtm_error_fallback_consistent _ _ _ _ _)
          | arr xs => exact Or.inl (mailtm_error_fallback_consistent _ _ _ _ _)
          | obj fs => exact Or.inl (mailtm_error_fallback_consistent _ _ _ _ _)

/-- After _mailtm_create_account, either the address invariant holds or the
stored email is a server-returned address with at least two at-signs. -/
theorem mailtm_create_account_email (s : GenState) (net : List NetResp)
    (cl da : Option String) (mtL fbU : String) (fbP : Nat) :
    email_consistent (mailtm_create_account s net cl da mtL fbU fbP).st ∨
    1 < (pyStr (mailtm_create_account s net cl da mtL fbU fbP).st.email).data.count '@' := by
  unfold mailtm_create_account
  rcases hnet1 : (mailtm_fetch_domains net).2 with _ | ⟨r, rest⟩
  · simp only [hnet1]
    exact Or.inl (mailtm_error_fallback_consistent _ _ _ _ _)
  · simp only [hnet1]
    cases r with
    | exn m => exact Or.inl (mailtm_error_fallback_consistent _ _ _ _ _)
    | http statusA bodyA =>
      dsimp only
      by_cases hstA : 400 ≤ statusA ∧ statusA < 600
      · rw [if_pos hstA]
        exact Or.inl (mailtm_error_fallback_consistent _ _ _ _ _)
      · rw [if_neg hstA]
        cases bodyA with
        | none => exact Or.inl (mailtm_error_fallback_consistent _ _ _ _ _)
        | some acc =>
          cases hpa : acc.pyGet "address" with
          | none =>
            simp only [hpa]
            exact Or.inl (mailtm_error_fallback_consistent _ _ _ _ _)
          | some av =>
            simp only [hpa]
            cases rest with
            | nil => exact Or.inl (mailtm_error_fallback_consistent _ _ _ _ _)
            | cons rt rest2 =>
              cases rt with
              | exn m => exact Or.inl (mailtm_error_fallback_consistent _ _ _ _ _)
              | http statusT bodyT =>
                dsimp only
                by_cases hstT : 400 ≤ statusT ∧ statusT < 600
                · rw [if_pos hstT]
                  exact Or.inl (mailtm_error_fallback_consistent _ _ _ _ _)
                · rw [if_neg hstT]
                  cases bodyT with
                  | none => exact Or.inl (mailtm_error_fallback_consistent _ _ _ _ _)
                  | some tok => exact mailtm_store_identity_email _ _ _ _ _ _

/-- After generate_random_email, either the address invariant holds or the
stored email is a server-returned address with at least two at-signs. -/
theorem generate_random_email_email (s : GenState) (net : List NetResp)
    (uname : String) (pick : Nat) (mtL fbU : String) (fbP : Nat) :
    email_consistent (generate_random_email s net uname pick mtL fbU fbP).st ∨
    1 < (pyStr (generate_random_email s net uname pick mtL fbU fbP).st.email).data.count '@' := by
  cases hp : s.provider with
  | onesecmail =>
    simp only [generate_random_email, hp]
    split
    · exact mailtm_create_account_email _ _ _ _ _ _ _
    · refine Or.inl ?_
      intro _ _ _
      simp [pyStr]
  | mailtm =>
    simp only [generate_random_email, hp]
    exact mailtm_create_account_email _ _ _ _ _ _ _

/-- After generate_custom_email, either the address invariant holds or the
stored email is a server-returned address with at least two at-signs. -/
theorem generate_custom_email_email (s : GenState) (net : List NetResp)
    (username : String) (da : Option String) (mtL fbU : String) (fbP : Nat) :
    email_consistent (generate_custom_email s net username da mtL fbU fbP).st ∨
    1 < (pyStr (generate_custom_email s net username da mtL fbU fbP).st.email).data.count '@' := by
  cases hp : s.provider with
  | onesecmail =>
    simp only [generate_custom_email, hp]
    cases da with
    | none =>
      refine Or.inl ?_
      intro _ _ _
      simp [generate_custom_fetch_default, pyStr]
    | some d =>
      dsimp only
      split
      · refine Or.inl ?_
        intro _ _ _
        simp [pyStr]
      · refine Or.inl ?_
        intro _ _ _
        simp [generate_custom_fetch_default, pyStr]
  | mailtm =>
    simp only [generate_custom_email, hp]
    exact mailtm_create_account_email _ _ _ _ _ _ _

/-- Claim C2 amended: after generate_random_email, generate_custom_email, or
the MailTM account-creation path, the stored email equals the stored login,
"@", the stored domain whenever all three are set - provided the stored
email contains at most one at-sign. The proviso can only fail on the MailTM
path, when the server-returned account address itself contains two or more
at-signs (the counterexample): there login gets the first and domain the
second at-separated component, losing the rest of the address. -/
theorem c2_address_invariant (s : GenState) (net : List NetResp)
    (uname : String) (pick : Nat) (username : String) (cl da : Option String)
    (mtL fbU : String) (fbP : Nat) :
    (at_most_one (pyStr (generate_random_email s net uname pick mtL fbU fbP).st.email) '@' →
      email_consistent (generate_random_email s net uname pick mtL fbU fbP).st) ∧
    (at_most_one (pyStr (generate_custom_email s net username da mtL fbU fbP).st.email) '@' →
      email_consistent (generate_custom_email s net username da mtL fbU fbP).st) ∧
    (at_most_one (pyStr (mailtm_create_account s net cl da mtL fbU fbP).st.email) '@' →
      email_consistent (mailtm_create_account s net cl da mtL fbU fbP).st) := by
  refine ⟨fun h => ?_, fun h => ?_, fun h => ?_⟩
  · rcases generate_random_email_email s net uname pick mtL fbU fbP with hok | hgt
    · exact hok
    · exact absurd hgt (Nat.not_lt.mpr h)
  · rcases generate_custom_email_email s net username da mtL fbU fbP with hok | hgt
    · exact hok
    · exact absurd hgt (Nat.not_lt.mpr h)
  · rcases mailtm_create_account_email s net cl da mtL fbU fbP with hok | hgt
    · exact hok
    · exact absurd hgt (Nat.not_lt.mpr h)

/-- Witness for C2 at a concrete input: total MailTM failure (empty oracle)
falls back to user1@1secmail.com, whose invariant the theorem certifies. -/
theorem c2_witness :
    pyStr (mailtm_create_account initState [] none none "m" "user1" 0).st.email =
      pyStr (mailtm_create_account initState [] none none "m" "user1" 0).st.login ++ "@" ++
      pyStr (mailtm_create_account initState [] none none "m" "user1" 0).st.domain :=
  (c2_address_invariant initState [] "u" 0 "v" none none "m" "user1" 0).2.2
    (by simp only [at_most_one]; decide) rfl rfl rfl

/-- Claim C4 amended: _get_json makes at most 3 attempts; a retry happens
exactly when the prior attempt raised an HTTPError with status in
{403, 429, 500, 502, 503, 504} and attempts remain; a transport-level
failure (a raising requests.get) is never retried but returns None at once;
the backoff before attempt n+1 is 1.5n seconds slept once for the non-403
retry statuses and twice (try block and handler) after a 403; and the third
attempt never consumes more than its one response. -/
theorem c4_retry_policy :
    (∀ (s : GenState) (net : List NetResp),
      net.length ≤ (get_json s net).net.length + 3) ∧
    (∀ (s : GenState) (m : String) (rest : List NetResp),
      get_json s (NetResp.exn m :: rest) =
        ⟨none, { s with last_http_status := none, last_http_error := some m },
          rest, ["❌ HTTP error: " ++ m], []⟩) ∧
    (∀ (s : GenState) (status : Nat) (body : Option Json) (rest : List NetResp),
      400 ≤ status → status < 600 → status ∉ retry_statuses →
      (get_json s (NetResp.http status body :: rest)).val = none ∧
      (get_json s (NetResp.http status body :: rest)).net = rest ∧
      (get_json s (NetResp.http status body :: rest)).sleeps = []) ∧
    (∀ (s : GenState) (status : Nat) (body : Option Json) (rest : List NetResp),
      status ∈ retry_statuses → status ≠ 403 →
      (get_json s (NetResp.http status body :: rest)).val =
        (get_json_loop 2 1 (set_status_error s status) rest).val ∧
      (get_json s (NetResp.http status body :: rest)).net =
        (get_json_loop 2 1 (set_status_error s status) rest).net ∧
      (get_json s (NetResp.http status body :: rest)).sleeps =
        backoff 0 :: (get_json_loop 2 1 (set_status_error s status) rest).sleeps) ∧
    (∀ (s : GenState) (body : Option Json) (rest : List NetResp),
      (get_json s (NetResp.http 403 body :: rest)).val =
        (get_json_loop 2 1 (set_status_error s 403) rest).val ∧
      (get_json s (NetResp.http 403 body :: rest)).net =
        (get_json_loop 2 1 (set_status_error s 403) rest).net ∧
      (get_json s (NetResp.http 403 body :: rest)).sleeps =
        backoff 0 :: backoff 0 ::
          (get_json_loop 2 1 (set_status_error s 403) rest).sleeps) ∧
    (∀ (st : GenState) (status : Nat) (body : Option Json) (rest : List NetResp),
      status ∈ retry_statuses → status ≠ 403 →
      (get_json_loop 2 1 st (NetResp.http status body :: rest)).sleeps =
        backoff 1 :: (get_json_loop 1 2 (set_status_error st status) rest).sleeps) ∧
    (∀ (st : GenState) (body : Option Json) (rest : List NetResp),
      (get_json_loop 2 1 st (NetResp.http 403 body :: rest)).sleeps =
        backoff 1 :: backoff 1 ::
          (get_json_loop 1 2 (set_status_error st 403) rest).sleeps) ∧
    (∀ (st : GenState) (r : NetResp) (rest : List NetResp),
      (get_json_loop 1 2 st (r :: rest)).net = rest) := by
  refine ⟨?_, ?_, ?_, ?_, ?_, ?_, ?_, ?_⟩
  · exact fun s net => get_json_loop_net_le 3 0 _ net
  · exact fun s m rest => rfl
  · intro s status body rest h4 h6 hnot
    have hne : ¬(status = 403) := fun e => hnot (by rw [e]; decide)
    simp only [get_json, get_json_loop]
    rw [if_neg hne, if_pos ⟨h4, h6⟩, if_neg (fun hh => hnot hh.1)]
    exact ⟨rfl, rfl, rfl⟩
  · intro s status body rest hmem hne
    simp only [retry_statuses, List.mem_cons, List.not_mem_nil, or_false] at hmem
    rcases hmem with rfl | rfl | rfl | rfl | rfl | rfl
    · exact absurd rfl hne
    · exact ⟨rfl, rfl, rfl⟩
    · exact ⟨rfl, rfl, rfl⟩
    · exact ⟨rfl, rfl, rfl⟩
    · exact ⟨rfl, rfl, rfl⟩
    · exact ⟨rfl, rfl, rfl⟩
  · intro s body rest
    exact ⟨rfl, rfl, rfl⟩
  · intro st status body rest hmem hne
    simp only [retry_statuses, List.mem_cons, List.not_mem_nil, or_false] at hmem
    rcases hmem with rfl | rfl | rfl | rfl | rfl | rfl
    · exact absurd rfl hne
    · rfl
    · rfl
    · rfl
    · rfl
    · rfl
  · intro st body rest
    rfl
  · intro st r rest
    cases r with
    | exn m => rfl
    | http status body =>
      simp only [get_json_loop]
      split
      · rfl
      · split
        · rw [if_neg (fun hh => absurd hh.2 (by decide))]
        · cases body <;> rfl

/-- Witness for C4 at a concrete input: a 404 (in the retryable range but
not a retry status) is not retried; the second oracle entry is unconsumed
and nothing is slept. -/
theorem c4_witness :
    (get_json initState [NetResp.http 404 none, NetResp.exn "x"]).val = none ∧
    (get_json initState [NetResp.http 404 none, NetResp.exn "x"]).net = [NetResp.exn "x"] ∧
    (get_json initState [NetResp.http 404 none, NetResp.exn "x"]).sleeps = [] :=
  c4_retry_policy.2.2.1 initState 404 none [NetResp.exn "x"]
    (by decide) (by decide) (by decide)

/-- Claim C7 amended: when a get_inbox network fetch fails, the call returns
the last cached entry (the empty initial one counts) and leaves the cache
fields unchanged - except in the OneSecMail case where the failure left
last_http_status 403 and no MailTM token is stored, which instead raises
AttributeError (the C7 counterexample); that case is excluded by
hypothesis here. -/
theorem c7_failure_returns_cached (s : GenState) (net : List NetResp) (now : ℚ)
    (hl : s.login.truthy = true) (hd : s.domain.truthy = true)
    (ht : ¬(now - s.last_inbox_ts < s.min_fetch_interval_sec)) :
    (s.provider = Provider.onesecmail →
      is_json_list (get_json s net).val = false →
      ¬((get_json s net).st.last_http_status = some 403 ∧
          s.mailtm_token.truthy = false) →
      (get_inbox s net now).val = Except.ok s.last_inbox ∧
      (get_inbox s net now).st.last_inbox = s.last_inbox ∧
      (get_inbox s net now).st.last_inbox_ts = s.last_inbox_ts) ∧
    (s.provider = Provider.mailtm →
      (mailtm_fetch_inbox s net).1 = none →
      (get_inbox s net now).val = Except.ok s.last_inbox ∧
      (get_inbox s net now).st.last_inbox = s.last_inbox ∧
      (get_inbox s net now).st.last_inbox_ts = s.last_inbox_ts) := by
  have hu := get_json_untouched s net
  constructor
  · intro hp hlist hno
    simp only [get_inbox, hl, hd, hp]
    rw [if_neg (by decide), if_neg ht]
    cases hv : (get_json s net).val with
    | none =>
      simp only [hv]
      by_cases h403 : (get_json s net).st.last_http_status = some 403
      · rw [if_pos h403]
        have htok : s.mailtm_token.truthy = true := by
          cases htv : s.mailtm_token.truthy with
          | true => rfl
          | false => exact absurd ⟨h403, htv⟩ hno
        have htok403 : (get_json s net).st.mailtm_token.truthy = true := by
          rw [hu.2.2.2.2.2.2.2.1]; exact htok
        simp only [htok403, Bool.not_true]
        rw [if_neg (show ¬(false = true) by decide)]
        exact ⟨by rw [hu.2.2.2.1], by rw [hu.2.2.2.1], by rw [hu.2.2.2.2.1]⟩
      · rw [if_neg h403]
        exact ⟨by rw [hu.2.2.2.1], by rw [hu.2.2.2.1], by rw [hu.2.2.2.2.1]⟩
    | some j =>
      cases j with
      | arr xs => rw [hv] at hlist; simp [is_json_list] at hlist
      | null =>
        simp only [hv]
        by_cases h403 : (get_json s net).st.last_http_status = some 403
        · rw [if_pos h403]
          have htok : s.mailtm_token.truthy = true := by
            cases htv : s.mailtm_token.truthy with
            | true => rfl
            | false => exact absurd ⟨h403, htv⟩ hno
          have htok403 : (get_json s net).st.mailtm_token.truthy = true := by
            rw [hu.2.2.2.2.2.2.2.1]; exact htok
          simp only [htok403, Bool.not_true]
          rw [if_neg (show ¬(false = true) by decide)]
          exact ⟨by rw [hu.2.2.2.1], by rw [hu.2.2.2.1], by rw [hu.2.2.2.2.1]⟩
        · rw [if_neg h403]
          exact ⟨by rw [hu.2.2.2.1], by rw [hu.2.2.2.1], by rw [hu.2.2.2.2.1]⟩
      | bool b =>
        simp only [hv]
        by_cases h403 : (get_json s net).st.last_http_status = some 403
        · rw [if_pos h403]
          have htok : s.mailtm_token.truthy = true := by
            cases htv : s.mailtm_token.truthy with
            | true => rfl
            | false => exact absurd ⟨h403, htv⟩ hno
          have htok403 : (get_json s net).st.mailtm_token.truthy = true := by
            rw [hu.2.2.2.2.2.2.2.1]; exact htok
          simp only [htok403, Bool.not_true]
          rw [if_neg (show ¬(false = true) by decide)]
          exact ⟨by rw [hu.2.2.2.1], by rw [hu.2.2.2.1], by rw [hu.2.2.2.2.1]⟩
        · rw [if_neg h403]
          exact ⟨by rw [hu.2.2.2.1], by rw [hu.2.2.2.1], by rw [hu.2.2.2.2.1]⟩
      | num n =>
        simp only [hv]
        by_cases h403 : (get_json s net).st.last_http_status = some 403
        · rw [if_pos h403]
          have htok : s.mailtm_token.truthy = true := by
            cases htv : s.mailtm_token.truthy with
            | true => rfl
            | false => exact absurd ⟨h403, htv⟩ hno
          have htok403 : (get_json s net).st.mailtm_token.truthy = true := by
            rw [hu.2.2.2.2.2.2.2.1]; exact htok
          simp only [htok403, Bool.not_true]
          rw [if_neg (show ¬(false = true) by decide)]
          exact ⟨by rw [hu.2.2.2.1], by rw [hu.2.2.2.1], by rw [hu.2.2.2.2.1]⟩
        · rw [if_neg h403]
          exact ⟨by rw [hu.2.2.2.1], by rw [hu.2.2.2.1], by rw [hu.2.2.2.2.1]⟩
      | str a =>
        simp only [hv]
        by_cases h403 : (get_json s net).st.last_http_status = some 403
        · rw [if_pos h403]
          have htok : s.mailtm_token.truthy = true := by
            cases htv : s.mailtm_token.truthy with
            | true => rfl
            | false => exact absurd ⟨h403, htv⟩ hno
          have htok403 : (get_json s net).st.mailtm_token.truthy = true := by
            rw [hu.2.2.2.2.2.2.2.1]; exact htok
          simp only [htok403, Bool.not_true]
          rw [if_neg (show ¬(false = true) by decide)]
          exact ⟨by rw [hu.2.2.2.1], by rw [hu.2.2.2.1], by rw [hu.2.2.2.2.1]⟩
        · rw [if_neg h403]
          exact ⟨by rw [hu.2.2.2.1], by rw [hu.2.2.2.1], by rw [hu.2.2.2.2.1]⟩
      | obj fs =>
        simp only [hv]
        by_cases h403 : (get_json s net).st.last_http_status = some 403
        · rw [if_pos h403]
          have htok : s.mailtm_token.truthy = true := by
            cases htv : s.mailtm_token.truthy with
            | true => rfl
            | false => exact absurd ⟨h403, htv⟩ hno
          have htok403 : (get_json s net).st.mailtm_token.truthy = true := by
            rw [hu.2.2.2.2.2.2.2.1]; exact htok
          simp only [htok403, Bool.not_true]
          rw [if_neg (show ¬(false = true) by decide)]
          exact ⟨by rw [hu.2.2.2.1], by rw [hu.2.2.2.1], by rw [hu.2.2.2.2.1]⟩
        · rw [if_neg h403]
          exact ⟨by rw [hu.2.2.2.1], by rw [hu.2.2.2.1], by rw [hu.2.2.2.2.1]⟩
  · intro hp hfetch
    have hc := mailtm_fetch_inbox_cache s net
    simp only [get_inbox, hl, hd, hp]
    rw [if_neg (by decide)]
    rw [if_neg ht]
    rw [hfetch]
    exact ⟨by rw [hc.1], hc.1, hc.2⟩

/-- Witness for C7 at a concrete input: the OneSecMail fetch fails with
three 500 responses (not 403), while a message is cached; the cached
message is returned and the cache is unchanged. -/
theorem c7_witness :
    (get_inbox alice_cached_state
        [NetResp.http 500 none, NetResp.http 500 none, NetResp.http 500 none]
        200).val = Except.ok [cached_msg] ∧
    (get_inbox alice_cached_state
        [NetResp.http 500 none, NetResp.http 500 none, NetResp.http 500 none]
        200).st.last_inbox = [cached_msg] :=
  ⟨((c7_failure_returns_cached alice_cached_state
      [NetResp.http 500 none, NetResp.http 500 none, NetResp.http 500 none] 200
      rfl rfl (by show ¬((200 : ℚ) - 100 < 6); norm_num)).1 rfl rfl
      (by
        intro h
        rw [(rfl : (get_json alice_cached_state
          [NetResp.http 500 none, NetResp.http 500 none,
           NetResp.http 500 none]).st.last_http_status = some 500)] at h
        exact absurd h.1 (by decide))).1,
   ((c7_failure_returns_cached alice_cached_state
      [NetResp.http 500 none, NetResp.http 500 none, NetResp.http 500 none] 200
      rfl rfl (by show ¬((200 : ℚ) - 100 < 6); norm_num)).1 rfl rfl
      (by
        intro h
        rw [(rfl : (get_json alice_cached_state
          [NetResp.http 500 none, NetResp.http 500 none,
           NetResp.http 500 none]).st.last_http_status = some 500)] at h
        exact absurd h.1 (by decide))).2.1⟩

end TempMail
